import Mathlib

/-!
Verification of the Employee_Performance_Tracker repository.

The repository ships a React/TypeScript frontend
(`emp_performance_FRONTEND/src`), a Google Apps Script collector
(`appscript_codes/code.gs`) and readmes describing a Python backend
(`base_processor.py`, `individual_analyzer.py`, `team_analyzer.py`,
`project_billing_analyzer.py`, `chart_generator.py`, `smart_app.py`) whose
source is not part of the tree.  Frontend and Apps Script logic is embedded
directly from the TypeScript / Apps Script sources; backend computations
(billing rule engine, status classification, submission index) are modelled
from the specification, as marked on each definition.

Hours, rates and percentages are embedded as rationals (`ℚ`); calendar
dates used by the submission index are embedded as day numbers (`ℕ`).
-/

namespace EmpTracker

/-! ### Billing rule engine (spec-modelled) -/

/-- Modelled from the spec: the Python `project_billing_analyzer.py` is not
under `src/`.  A billing bucket is one (employee, date, category) group of a
project with its summed hours (spec §4.4: "Per (employee, date, category)
bucket, sum `hours`"). -/
structure BillingBucket where
  employee : String
  date : String
  category : String
  summed_hours : ℚ
deriving Repr, DecidableEq

/-- Modelled from the spec: result record of the billing rule engine for one
bucket (spec §3, BillingRecord). -/
structure BillingRecord where
  billable_hours : ℚ
  extra_hours : ℚ
  cap_applied : Bool
deriving Repr, DecidableEq

/-- Modelled from the spec: a project's billing policy maps a category token
to an optional daily cap or "uncapped" (spec §6: `{category_token:
cap_hours | uncapped}`).  Categories not listed default to uncapped
(spec §4.4). -/
abbrev ProjectCaps : Type := List (String × Option ℚ)

/-- Modelled from the spec: look up the configured cap of a category.
Returns `none` both for a category explicitly configured as uncapped and
for a category absent from the policy table (spec §4.4: "Categories not
explicitly configured for a project default to uncapped"). -/
def capFor (caps : ProjectCaps) (category : String) : Option ℚ :=
  match caps.find? (fun p => p.1 == category) with
  | some p => p.2
  | none => none

/-- Modelled from the spec: the billing rule engine applied to one bucket
(spec §4.4): when a cap exists and summed hours exceed it,
`billable_hours = cap`, `extra_hours = summed - cap`, `cap_applied = true`;
otherwise `billable_hours = summed`, `extra_hours = 0`. -/
def billBucket (caps : ProjectCaps) (b : BillingBucket) : BillingRecord :=
  match capFor caps b.category with
  | some c =>
      if b.summed_hours > c then
        { billable_hours := c, extra_hours := b.summed_hours - c, cap_applied := true }
      else
        { billable_hours := b.summed_hours, extra_hours := 0, cap_applied := false }
  | none =>
      { billable_hours := b.summed_hours, extra_hours := 0, cap_applied := false }

/-- Modelled from the spec: per-employee billing rollup totals
(spec §4.4 employee-level rollup). -/
structure EmployeeRollup where
  total_hours : ℚ
  total_billable_hours : ℚ
deriving Repr, DecidableEq

/-- Modelled from the spec: `billing_efficiency = total_billable_hours /
total_hours * 100`, guarded against division by zero and defined as 100
when `total_hours == 0` (spec §4.4). -/
def billing_efficiency (e : EmployeeRollup) : ℚ :=
  if e.total_hours = 0 then 100
  else e.total_billable_hours / e.total_hours * 100

/-! ### Status classification (spec-modelled) -/

/-- Modelled from the spec: the six performance statuses produced by the
Python `individual_analyzer.py`, which is not under `src/` (spec §4.2;
the same six labels appear in `SmartSearchFilters.tsx`
`availableStatuses`). -/
inductive Status
  | nonReporter
  | veryPoor
  | poor
  | inconsistent
  | good
  | excellent
deriving Repr, DecidableEq

/-- Modelled from the spec: configurable thresholds of the status decision
table (spec §4.2: minimum good hours default 6, excellent band default
7–10). -/
structure StatusThresholds where
  minGoodHours : ℚ
  excellentLow : ℚ
  excellentHigh : ℚ
deriving Repr, DecidableEq

/-- Modelled from the spec: the default thresholds named in §4.2. -/
def defaultThresholds : StatusThresholds :=
  { minGoodHours := 6, excellentLow := 7, excellentHigh := 10 }

/-- Modelled from the spec: the status decision table of §4.2, applied in
the stated precedence order with first match winning; an employee matching
none of rules 1–6 defaults to `Good`. -/
def classifyStatus (th : StatusThresholds) (rate avgHours : ℚ) (maxGap : ℕ) : Status :=
  if rate = 0 then .nonReporter
  else if rate < 1/2 then .veryPoor
  else if rate < 7/10 then .poor
  else if maxGap ≥ 3 then .inconsistent
  else if avgHours ≥ th.minGoodHours then .good
  else if rate ≥ 9/10 ∧ th.excellentLow ≤ avgHours ∧ avgHours ≤ th.excellentHigh ∧ maxGap ≤ 1 then
    .excellent
  else .good

/-! ### Submission index (spec-modelled) -/

/-- Modelled from the spec: a normalized work record as far as the
submission index needs it — the resolving `employee_ref` and the calendar
date as a day number (spec §3, NormalizedWorkRecord; the Python
`base_processor.py` is not under `src/`). -/
structure WorkRec where
  employee_ref : String
  date : ℕ
deriving Repr, DecidableEq

/-- Modelled from the spec: the global minimum date over all records
(spec §3: working days are "derived from the global min/max date range of
all records"). -/
def globalMinDate (rs : List WorkRec) : ℕ :=
  match rs.map (fun r => r.date) with
  | [] => 0
  | d :: ds => ds.foldl Nat.min d

/-- Modelled from the spec: the global maximum date over all records. -/
def globalMaxDate (rs : List WorkRec) : ℕ :=
  match rs.map (fun r => r.date) with
  | [] => 0
  | d :: ds => ds.foldl Nat.max d

/-- Modelled from the spec: `working_days`, the ordered set of calendar
days between the dataset's global min and max date, inclusive (spec §3,
§4.2). -/
def workingDays (rs : List WorkRec) : List ℕ :=
  if rs = [] then []
  else (List.range (globalMaxDate rs + 1 - globalMinDate rs)).map
    (fun i => globalMinDate rs + i)

/-- Modelled from the spec: `submitted_days`, the subset of `working_days`
with at least one record of the employee (spec §3, SubmissionIndex
entry). -/
def submittedDays (rs : List WorkRec) (emp : String) : List ℕ :=
  (workingDays rs).filter
    (fun d => rs.any (fun r => r.employee_ref == emp && r.date == d))

/-- Modelled from the spec: `submission_rate = submitted_days /
working_days` (spec §4.2), with the empty-dataset guard of §7
(`EmptyDataset`: rate computations return well-defined zero defaults). -/
def submissionRate (rs : List WorkRec) (emp : String) : ℚ :=
  if (workingDays rs).length = 0 then 0
  else ((submittedDays rs emp).length : ℚ) / ((workingDays rs).length : ℚ)

/-! ### Chart data model (from `types/index.ts` and `DynamicChart.tsx`) -/

/-- Embeds a JavaScript value appearing in a chart dataset `data` array
(`DynamicChart.tsx` coerces entries that are numbers, strings, or anything
else). -/
inductive JSValue
  | num (q : ℚ)
  | str (s : String)
  | other
deriving Repr, DecidableEq

/-- Embeds one entry of `ChartData.datasets` (`types/index.ts`); the purely
presentational style fields (`backgroundColor`, `borderColor`,
`borderWidth`, ...) are omitted. -/
structure Dataset where
  label : String
  data : List JSValue
deriving Repr, DecidableEq

/-- Embeds the `ChartData` descriptor of `types/index.ts` /
`DynamicChart.tsx` (`chartType`, `chartTitle`, `labels`, `datasets`); the
`options` style object is omitted. -/
structure ChartData where
  chartType : String
  chartTitle : String
  labels : List String
  datasets : List Dataset
deriving Repr, DecidableEq

/-- Embeds one `{status, count}` row of `comprehensiveCharts.status_distribution`
(`MessageBubble.tsx`). -/
structure StatusCount where
  status : String
  count : ℚ
deriving Repr, DecidableEq

/-- Embeds one `{project, hours}` row of `comprehensiveCharts.project_distribution`
(`MessageBubble.tsx`). -/
structure ProjectHours where
  project : String
  hours : ℚ
deriving Repr, DecidableEq

/-- Embeds one `{name, rate}` row of `comprehensiveCharts.top_submitters`;
`rate` is optional because the source reads it as `emp.rate || 0`. -/
structure NameRate where
  name : String
  rate : Option ℚ
deriving Repr, DecidableEq

/-- Embeds one `{name, hours}` row of `comprehensiveCharts.top_hours`;
`hours` is optional because the source reads it as `emp.hours || 0`. -/
structure NameHours where
  name : String
  hours : Option ℚ
deriving Repr, DecidableEq

/-- Embeds the `comprehensiveCharts` bundle attached to a bot message
(`MessageBubble.tsx` reads these four collections). -/
structure ComprehensiveCharts where
  status_distribution : List StatusCount
  project_distribution : List ProjectHours
  top_submitters : List NameRate
  top_hours : List NameHours
deriving Repr, DecidableEq

/-- Embeds JavaScript `hay.toLowerCase().includes(needle)` for a lowercase
needle: some suffix of the per-character lowercased haystack starts with
the needle. -/
def strContains (hay needle : String) : Bool :=
  let h := hay.data.map Char.toLower
  let n := needle.data
  (List.range (h.length + 1)).any (fun i => n.isPrefixOf (h.drop i))

/-- Embeds `getChartFromComprehensiveData` of `MessageBubble.tsx`: derives a
chart descriptor from the message's `comprehensiveCharts` bundle keyed on
substrings of the message text, or returns none (`null`).  `slice(0, 10)`
is `List.take 10`; `emp.rate || 0` / `emp.hours || 0` are `Option.getD 0`;
the hard-coded `backgroundColor` arrays are presentational and omitted. -/
def getChartFromComprehensiveData (charts : Option ComprehensiveCharts)
    (text : String) : Option ChartData :=
  match charts with
  | none => none
  | some c =>
    if (strContains text "status" || strContains text "breakdown")
        && !c.status_distribution.isEmpty then
      some { chartType := "doughnut", chartTitle := "Team Status Distribution",
             labels := c.status_distribution.map (fun d => d.status),
             datasets := [{ label := "Employees",
                            data := c.status_distribution.map (fun d => JSValue.num d.count) }] }
    else if strContains text "project"
        && (strContains text "distribution" || strContains text "share")
        && !c.project_distribution.isEmpty then
      some { chartType := "doughnut", chartTitle := "Project Workload Distribution",
             labels := c.project_distribution.map (fun d => d.project),
             datasets := [{ label := "Hours",
                            data := c.project_distribution.map (fun d => JSValue.num d.hours) }] }
    else if strContains text "lyell" && !c.top_submitters.isEmpty then
      some { chartType := "bar", chartTitle := "Top Lyell Contributors",
             labels := (c.top_submitters.take 10).map (fun e => e.name),
             datasets := [{ label := "Hours",
                            data := (c.top_submitters.take 10).map
                              (fun e => JSValue.num (e.rate.getD 0)) }] }
    else if strContains text "performance" && !c.top_hours.isEmpty then
      some { chartType := "bar", chartTitle := "Employee Performance",
             labels := (c.top_hours.take 10).map (fun e => e.name),
             datasets := [{ label := "Average Daily Hours",
                            data := (c.top_hours.take 10).map
                              (fun e => JSValue.num (e.hours.getD 0)) }] }
    else none

/-- Embeds the fields of a chat `Message` that `MessageBubble.tsx` reads
when choosing a chart.  `embeddedJson` is the result of the Priority-3
step's `JSON.parse` on the fenced ` ```json ` block of `text` (`null` /
`none` when the block is absent or unparseable); `JSON.parse` itself is a
JavaScript builtin external to this repository. -/
structure Msg where
  sender : String
  text : String
  chartData : Option ChartData
  comprehensiveCharts : Option ComprehensiveCharts
  embeddedJson : Option ChartData
deriving Repr, DecidableEq

/-- Embeds Priority 3 of `extractedChartData` (`MessageBubble.tsx`): only
bot messages are considered, and the parsed chart is used only when its
`chartType` is truthy and not the string none. -/
def extractTextJson (m : Msg) : Option ChartData :=
  if m.sender != "bot" then none
  else
    match m.embeddedJson with
    | none => none
    | some cd =>
      if cd.chartType != "" && cd.chartType != "none" then some cd else none

/-- Embeds Priorities 2 and 3 of `extractedChartData` (`MessageBubble.tsx`):
the comprehensive-chart derivation, then the embedded-JSON extraction. -/
def fallbackChartData (m : Msg) : Option ChartData :=
  match getChartFromComprehensiveData m.comprehensiveCharts m.text with
  | some c => some c
  | none => extractTextJson m

/-- Embeds `extractedChartData` of `MessageBubble.tsx`: Priority 1 returns
the message's explicit `chartData` whenever it is present with a
`chartType` other than the string none; only otherwise are the fallback
priorities consulted. -/
def extractedChartData (m : Msg) : Option ChartData :=
  match m.chartData with
  | some cd => if cd.chartType != "none" then some cd else fallbackChartData m
  | none => fallbackChartData m

/-! ### DynamicChart rendering (from `DynamicChart.tsx` in `App.tsx`) -/

/-- Embeds the outcome of rendering a chart descriptor: the component
either returns `null` (renders nothing) or renders a chart from the
prepared labels and dataset data arrays. -/
inductive RenderOutcome
  | nothing
  | chart (labels : List String) (data : List (List JSValue))
deriving Repr, DecidableEq

/-- Embeds the validation prologue of `DynamicChart`: `null` is returned
when `chartType` is the string none, when `datasets` is empty, or when a
scatter chart has no dataset with a non-empty `data` array.  The
`!chartData.labels || !chartData.datasets` null-checks are subsumed by the
typed model, in which both arrays are always present. -/
def dynamicChartValid (cd : ChartData) : Bool :=
  if cd.chartType == "none" then false
  else if cd.datasets.isEmpty then false
  else if cd.chartType == "scatter" then
    cd.datasets.any (fun ds => !ds.data.isEmpty)
  else true

/-- Embeds the regex replace `[^\d.-]` of `DynamicChart`: keep only digits,
the dot and the minus sign. -/
def stripNonNumeric (s : String) : String :=
  String.mk (s.data.filter (fun c => c.isDigit || c == '.' || c == '-'))

/-- Embeds the value of a digit string, most significant first. -/
def digitsVal (cs : List Char) : ℕ :=
  cs.foldl (fun a c => a * 10 + (c.toNat - ('0').toNat)) 0

/-- Embeds the JavaScript `Number(s)` conversion on strings drawn from the
post-strip alphabet (digits, dot, minus): the empty string converts to 0,
an optionally signed decimal numeral converts to its value, and anything
else is NaN (`none`). -/
def jsNumber (s : String) : Option ℚ :=
  let cs := s.data
  if cs.isEmpty then some 0
  else
    let neg := cs.head? == some '-'
    let body := if neg then cs.tail else cs
    let intPart := body.takeWhile Char.isDigit
    let rest := body.dropWhile Char.isDigit
    let value : Option ℚ :=
      match rest with
      | [] => if intPart.isEmpty then none else some (digitsVal intPart : ℚ)
      | '.' :: rest2 =>
        let fracPart := rest2.takeWhile Char.isDigit
        let rest3 := rest2.dropWhile Char.isDigit
        if !rest3.isEmpty then none
        else if intPart.isEmpty && fracPart.isEmpty then none
        else some ((digitsVal intPart : ℚ) + (digitsVal fracPart : ℚ) / (10 ^ fracPart.length))
      | _ => none
    match value with
    | none => none
    | some v => some (if neg then -v else v)

/-- Embeds the numeric coercion of `DynamicChart` applied to each data
entry: numbers pass through, strings are stripped of non-numeric
characters and converted with `Number(cleaned) || 0` (NaN becomes 0, and
`|| 0` maps a zero result to the same 0), anything else becomes 0. -/
def coerceNumeric (v : JSValue) : ℚ :=
  match v with
  | .num q => q
  | .str s =>
    match jsNumber (stripNonNumeric s) with
    | some q => q
    | none => 0
  | .other => 0

/-- Embeds the `scatter`/`bubble` test of the `chartConfig` dataset map in
`DynamicChart`. -/
def isXYChart (t : String) : Bool := t == "scatter" || t == "bubble"

/-- Embeds the `numericData` computation of `DynamicChart` for one
dataset. -/
def numericData (ds : Dataset) : List JSValue :=
  ds.data.map (fun v => JSValue.num (coerceNumeric v))

/-- Embeds the `chartConfig.datasets` data arrays of `DynamicChart`:
scatter and bubble datasets keep their raw data (`dataset.data || []`),
all other chart types take the coerced `numericData`. -/
def chartConfigData (cd : ChartData) : List (List JSValue) :=
  cd.datasets.map (fun ds => if isXYChart cd.chartType then ds.data else numericData ds)

/-- Embeds the data-length safety check of `renderChart`: arrays shorter
than `labels` are zero-padded, longer ones are sliced to `labels.length`
(an equal-length array is unchanged, which `take` also preserves). -/
def normalizeLength (n : ℕ) (d : List JSValue) : List JSValue :=
  if d.length < n then d ++ List.replicate (n - d.length) (JSValue.num 0)
  else d.take n

/-- Embeds the dataset data arrays as they reach the chart component: the
`renderChart` length normalization applies to every chart type except
scatter. -/
def renderedData (cd : ChartData) : List (List JSValue) :=
  if cd.chartType == "scatter" then chartConfigData cd
  else (chartConfigData cd).map (fun d => normalizeLength cd.labels.length d)

/-- Embeds the `DynamicChart` component: an invalid descriptor renders
nothing (`null`, with only a `console.warn`), a valid one renders the
prepared configuration.  The pure data preparation cannot throw, so the
`renderChart` catch branch is unreachable in the model. -/
def dynamicChart (cd : ChartData) : RenderOutcome :=
  if dynamicChartValid cd then RenderOutcome.chart cd.labels (renderedData cd)
  else RenderOutcome.nothing

/-! ### Smart filters (from `SmartSearchFilters.tsx` and `ChatInterface.tsx`) -/

/-- Embeds the `FilterOptions` record of `SmartSearchFilters.tsx` /
`ChatInterface.tsx`; the nested `dateRange` object is flattened into its
two nullable fields. -/
structure FilterOptions where
  projects : List String
  statuses : List String
  dateStart : Option String
  dateEnd : Option String
deriving Repr, DecidableEq

/-- Embeds JavaScript `arr.join(' and ')`. -/
def joinAnd (xs : List String) : String :=
  String.intercalate " and " xs

/-- Embeds the civil-calendar day number of a Gregorian date (days since
the Unix epoch), which is what `new Date('YYYY-MM-DD').getTime()` divided
by one day yields for an ISO date string. -/
def daysFromCivil (y : ℤ) (m d : ℕ) : ℤ :=
  let y2 := if m ≤ 2 then y - 1 else y
  let era := Int.fdiv y2 400
  let yoe := y2 - era * 400
  let mp : ℕ := if m > 2 then m - 3 else m + 9
  let doy : ℕ := (153 * mp + 2) / 5 + d - 1
  let doe : ℤ := yoe * 365 + Int.fdiv yoe 4 - Int.fdiv yoe 100 + (doy : ℤ)
  era * 146097 + doe - 719468

/-- Embeds parsing an ISO `YYYY-MM-DD` string to its civil day number;
`none` models an invalid date (`NaN` epoch in JavaScript). -/
def parseISODate (s : String) : Option ℤ :=
  match s.splitOn "-" with
  | [ys, ms, ds] =>
    match ys.toNat?, ms.toNat?, ds.toNat? with
    | some y, some m, some d => some (daysFromCivil (y : ℤ) m d)
    | _, _, _ => none
  | _ => none

/-- Embeds the final `else` branch of `generateFilterQuery`
(`ChatInterface.tsx`): the generic combination query built from the active
filter parts. -/
def genericQuery (f : FilterOptions) : String :=
  let parts : List String :=
    (if !f.projects.isEmpty then
      [joinAnd f.projects ++ " project" ++ (if f.projects.length > 1 then "s" else "")]
     else []) ++
    (if !f.statuses.isEmpty then
      ["employees with " ++ String.intercalate " or " f.statuses ++ " status"]
     else []) ++
    (match f.dateStart, f.dateEnd with
     | some s, some e => ["from " ++ s ++ " to " ++ e]
     | some s, none => ["since " ++ s]
     | none, some e => ["until " ++ e]
     | none, none => [])
  if parts.isEmpty then "" else "Show " ++ String.intercalate " " parts

/-- Embeds `generateFilterQuery` of `ChatInterface.tsx`: the branch ladder
that turns a `FilterOptions` value into a natural-language query.  A pair
of unparseable dates makes `daysDiff` NaN in the source, failing both
`<= 7` and `<= 31`, hence the explicit from/to sentence. -/
def generateFilterQuery (f : FilterOptions) : String :=
  let hasProjects := !f.projects.isEmpty
  let hasStatuses := !f.statuses.isEmpty
  let hasDateRange := f.dateStart.isSome || f.dateEnd.isSome
  if hasStatuses && f.statuses.contains "Excellent" && f.statuses.contains "Good"
      && f.statuses.length == 2 then
    "Show top performing employees"
  else if hasStatuses && (f.statuses.contains "Poor" || f.statuses.contains "Very Poor"
      || f.statuses.contains "Non-Reporter") then
    "Show employees needing attention"
  else if hasProjects && f.projects.length == 1 then
    "Show " ++ f.projects.headD "" ++ " project analysis"
  else if hasProjects && f.projects.length > 1 then
    "Show " ++ joinAnd f.projects ++ " projects analysis"
  else if hasDateRange && !hasProjects && !hasStatuses then
    match f.dateStart, f.dateEnd with
    | some s, some e =>
      match parseISODate s, parseISODate e with
      | some sd, some ed =>
        let daysDiff := ed - sd
        if daysDiff ≤ 7 then "Show performance for the last 7 days"
        else if daysDiff ≤ 31 then "Show performance for this month"
        else "Show performance from " ++ s ++ " to " ++ e
      | _, _ => "Show performance from " ++ s ++ " to " ++ e
    | some s, none => "Show performance since " ++ s
    | none, some e => "Show performance until " ++ e
    | none, none => ""
  else
    genericQuery f

/-- Embeds `handleFiltersApply` of `ChatInterface.tsx`: when any filter is
active, the generated query is sent as a chat message unless it is the
empty string; the result is the message sent, if any. -/
def handleFiltersApply (f : FilterOptions) : Option String :=
  let hasActive := !f.projects.isEmpty || !f.statuses.isEmpty
      || f.dateStart.isSome || f.dateEnd.isSome
  if hasActive then
    let q := generateFilterQuery f
    if q != "" then some q else none
  else none

/-- Embeds the preset `FilterOptions` built by `applyQuickFilter` of
`SmartSearchFilters.tsx` for each quick-filter id.  The `this-week` and
`this-month` presets read the wall clock; the three date strings are the
component's ISO serializations of today, a week ago and the first of the
month, passed in as parameters since the clock is external. -/
def quickFilterOptions (todayStr weekAgoStr monthStartStr : String)
    (t : String) : FilterOptions :=
  if t == "top-performers" then
    { projects := [], statuses := ["Excellent", "Good"], dateStart := none, dateEnd := none }
  else if t == "need-attention" then
    { projects := [], statuses := ["Poor", "Very Poor", "Non-Reporter"],
      dateStart := none, dateEnd := none }
  else if t == "lyell-project" then
    { projects := ["Lyell"], statuses := [], dateStart := none, dateEnd := none }
  else if t == "dataplatr-project" then
    { projects := ["DataPlatr"], statuses := [], dateStart := none, dateEnd := none }
  else if t == "this-week" then
    { projects := [], statuses := [], dateStart := some weekAgoStr, dateEnd := some todayStr }
  else if t == "this-month" then
    { projects := [], statuses := [], dateStart := some monthStartStr, dateEnd := some todayStr }
  else
    { projects := [], statuses := [], dateStart := none, dateEnd := none }

/-- Embeds clicking a quick-filter button: `applyQuickFilter` builds the
preset and immediately calls `onFiltersApply`, which is `App.tsx`'s
`handleFiltersApply` delegating to the `ChatInterface` handler; the result
is the chat message sent, if any. -/
def applyQuickFilter (todayStr weekAgoStr monthStartStr t : String) : Option String :=
  handleFiltersApply (quickFilterOptions todayStr weekAgoStr monthStartStr t)

/-! ### Daily report collector (from `appscript_codes/code.gs`) -/

/-- Embeds one task entry of the submitted form data
(`{category, description, hours}` in `saveToSheet`). -/
structure TaskEntry where
  category : String
  description : String
  hours : ℚ
deriving Repr, DecidableEq

/-- Embeds the form submission object received by `saveToSheet`; every
field is optional, matching the `data.x || default` reads of the source
(a missing or falsy field selects the default). -/
structure FormData where
  employeeName : Option String
  email : Option String
  reportDate : Option String
  tasks : Option (List TaskEntry)
  totalHours : Option ℚ
deriving Repr, DecidableEq

/-- Embeds one spreadsheet cell of the appended row: the auto-generated
timestamp (a `Date` object, modelled as an opaque tick count) or a plain
string. -/
inductive Cell
  | timestamp (t : ℕ)
  | str (s : String)
deriving Repr, DecidableEq

/-- Embeds the task formatting of `saveToSheet`:
`[category] description (hoursh)` joined over all tasks. -/
def formatTask (t : TaskEntry) : String :=
  "[" ++ t.category ++ "] " ++ t.description ++ " (" ++ toString t.hours ++ "h)"

/-- Embeds the `timeSpent` formatting of `saveToSheet`: whole hours print
as `N hrs`, fractional hours as `N hrs M mins` with the minutes rounded as
by `Math.round`; `h % 1 === 0` is integrality of `h`, and for the
non-negative hours the form collects, `h % 1` is the fractional part. -/
def formatTimeSpent (h : ℚ) : String :=
  if h.den = 1 then toString h.num ++ " hrs"
  else toString (Int.floor h) ++ " hrs " ++ toString (round ((h - Int.floor h) * 60)) ++ " mins"

/-- Embeds the six-column `rowData` built by `saveToSheet`: timestamp,
email, name, date, combined task text, formatted time spent.  `today` is
`new Date().toISOString().split('T')[0]`, the default report date. -/
def buildRow (ts : ℕ) (today : String) (d : FormData) : List Cell :=
  let tasks := d.tasks.getD []
  let totalHours := d.totalHours.getD 0
  [ Cell.timestamp ts,
    Cell.str (d.email.getD ""),
    Cell.str (d.employeeName.getD ""),
    Cell.str (d.reportDate.getD today),
    Cell.str (String.intercalate "\n" (tasks.map formatTask)),
    Cell.str (formatTimeSpent totalHours) ]

/-- Embeds the external `SpreadsheetApp` service as seen by `saveToSheet`'s
`try` block: `appendRowError` injects the exception thrown by a sheet
operation, `none` meaning every operation succeeds.  The per-cell
formatting steps sit in their own inner `try`/`catch` blocks and cannot
affect the appended row or the result. -/
structure SheetEnv where
  appendRowError : Option String
deriving Repr, DecidableEq

/-- Embeds the value returned by `saveToSheet`: the success object (with
its data-derived fields) or the `{success: false, error}` object produced
by the outer `catch`.  The function always returns; it never rethrows. -/
inductive SaveResult
  | success (timestamp : ℕ) (totalTasks : ℕ) (totalHours : ℚ)
  | failure (error : String)
deriving Repr, DecidableEq

/-- Embeds `saveToSheet` of `code.gs`: builds the six-column row, appends
it, and catches any exception of the sheet service, returning
`{success: false, error}` instead of throwing.  The result pairs the
returned object with the list of rows appended to the sheet. -/
def saveToSheet (env : SheetEnv) (ts : ℕ) (today : String) (d : FormData) :
    SaveResult × List (List Cell) :=
  match env.appendRowError with
  | some e => (SaveResult.failure e, [])
  | none =>
      (SaveResult.success ts (d.tasks.getD []).length (d.totalHours.getD 0),
       [buildRow ts today d])

/-! ### Concrete example inputs used by counterexamples and witnesses -/

/-- Example explicit chart descriptor whose `chartType` is not none but
which fails the `DynamicChart` structural validation (empty datasets). -/
def cexExternalChart : ChartData :=
  { chartType := "bar", chartTitle := "", labels := [], datasets := [] }

/-- Example comprehensive-charts bundle carrying a usable status
distribution. -/
def cexFallbackCharts : ComprehensiveCharts :=
  { status_distribution := [{ status := "Good", count := 5 }],
    project_distribution := [], top_submitters := [], top_hours := [] }

/-- Example bot message carrying both the malformed explicit descriptor and
a usable fallback bundle. -/
def cexMsg : Msg :=
  { sender := "bot", text := "status breakdown", chartData := some cexExternalChart,
    comprehensiveCharts := some cexFallbackCharts, embeddedJson := none }

/-- The fallback descriptor the comprehensive-chart derivation produces for
`cexMsg`. -/
def cexFallbackChart : ChartData :=
  { chartType := "doughnut", chartTitle := "Team Status Distribution",
    labels := ["Good"],
    datasets := [{ label := "Employees", data := [JSValue.num 5] }] }

/-- Example Lyell billing policy: ETL capped at 4 hours per day. -/
def exCaps : ProjectCaps := [("ETL", some 4)]

/-- Example capped bucket: 6 ETL hours on one day. -/
def exBucket : BillingBucket :=
  { employee := "jane@co.com", date := "2024-01-05", category := "ETL", summed_hours := 6 }

/-- Example uncapped bucket: 12 Development hours on one day. -/
def exBucketDev : BillingBucket :=
  { employee := "jane@co.com", date := "2024-01-05", category := "Development",
    summed_hours := 12 }

/-- Example chart descriptor exercising the numeric coercion and the
length normalization: three labels against five raw data entries. -/
def exChartC9 : ChartData :=
  { chartType := "bar", chartTitle := "Example", labels := ["a", "b", "c"],
    datasets := [{ label := "d1",
                   data := [JSValue.str "7.5h", JSValue.num 2, JSValue.other,
                            JSValue.str "x", JSValue.num 1] }] }

/-! ### Helper lemmas -/

/-- Mapping over a non-empty list yields a non-empty list. -/
lemma map_ne_nil {α β : Type} (f : α → β) (l : List α) (h : l ≠ []) : l.map f ≠ [] := by
  cases l with
  | nil => exact absurd rfl h
  | cons a t => simp

/-- Mapping over a positive-length take of a non-empty list yields a
non-empty list. -/
lemma take10_map_ne_nil {α β : Type} (f : α → β) (l : List α) (h : l ≠ []) :
    (l.take 10).map f ≠ [] := by
  cases l with
  | nil => exact absurd rfl h
  | cons a t => simp

/-- A list whose `isEmpty` is `false` is not nil. -/
lemma ne_nil_of_isEmpty_false {α : Type} {l : List α} (h : l.isEmpty = false) : l ≠ [] := by
  cases l <;> simp_all

/-- The length normalization always produces exactly `n` entries. -/
lemma normalizeLength_length (n : ℕ) (d : List JSValue) :
    (normalizeLength n d).length = n := by
  unfold normalizeLength
  split
  · rename_i h
    simp
    omega
  · rename_i h
    simp
    omega

/-- The length normalization preserves all-numeric data (the padding is
numeric zero). -/
lemma mem_normalizeLength_num (n : ℕ) (d : List JSValue)
    (h : ∀ v ∈ d, ∃ q : ℚ, v = JSValue.num q) :
    ∀ v ∈ normalizeLength n d, ∃ q : ℚ, v = JSValue.num q := by
  intro v hv
  unfold normalizeLength at hv
  split at hv
  · rcases List.mem_append.1 hv with hv1 | hv2
    · exact h v hv1
    · exact ⟨0, List.eq_of_mem_replicate hv2⟩
  · exact h v (List.mem_of_mem_take hv)

/-- Every entry of a coerced dataset is numeric. -/
lemma mem_numericData_num (ds : Dataset) :
    ∀ v ∈ numericData ds, ∃ q : ℚ, v = JSValue.num q := by
  intro v hv
  obtain ⟨w, _, rfl⟩ := List.mem_map.1 hv
  exact ⟨coerceNumeric w, rfl⟩

/-! ### Claim theorems -/

/-- C1: for every billing bucket of a project whose category carries a
configured daily cap `C`, the billing rule engine produces
`billable_hours = C`, `extra_hours = summed - C`, `cap_applied = true`
whenever the summed hours exceed `C`; hence `billable_hours ≤ C` and
`extra_hours = max 0 (summed_hours - C)` for all capped buckets. -/
theorem C1_billing_cap (caps : ProjectCaps) (b : BillingBucket) (C : ℚ)
    (hc : capFor caps b.category = some C) :
    (b.summed_hours > C → billBucket caps b =
      { billable_hours := C, extra_hours := b.summed_hours - C, cap_applied := true }) ∧
    (billBucket caps b).billable_hours ≤ C ∧
    (billBucket caps b).extra_hours = max 0 (b.summed_hours - C) := by
  unfold billBucket
  rw [hc]
  refine ⟨fun hgt => by simp [hgt], ?_, ?_⟩
  · by_cases hgt : b.summed_hours > C
    · simp [hgt]
    · simp [hgt]
      linarith
  · by_cases hgt : b.summed_hours > C
    · simp [hgt]
      linarith
    · simp [hgt]
      linarith

/-- C1 witness: Lyell-style policy capping ETL at 4 hours, a bucket of 6
summed ETL hours. -/
theorem C1_billing_cap_witness :
    (exBucket.summed_hours > 4 → billBucket exCaps exBucket =
      { billable_hours := 4, extra_hours := exBucket.summed_hours - 4, cap_applied := true }) ∧
    (billBucket exCaps exBucket).billable_hours ≤ 4 ∧
    (billBucket exCaps exBucket).extra_hours = max 0 (exBucket.summed_hours - 4) :=
  C1_billing_cap exCaps exBucket 4 (by decide)

/-- C2: the status classification is a total function into the six
statuses, applied with first match winning, and an employee with
submission rate 0 is classified Non-Reporter and never Poor. -/
theorem C2_status_total (th : StatusThresholds) (rate avgHours : ℚ) (maxGap : ℕ) :
    (classifyStatus th rate avgHours maxGap = Status.nonReporter ∨
     classifyStatus th rate avgHours maxGap = Status.veryPoor ∨
     classifyStatus th rate avgHours maxGap = Status.poor ∨
     classifyStatus th rate avgHours maxGap = Status.inconsistent ∨
     classifyStatus th rate avgHours maxGap = Status.good ∨
     classifyStatus th rate avgHours maxGap = Status.excellent) ∧
    (rate = 0 → classifyStatus th rate avgHours maxGap = Status.nonReporter ∧
      classifyStatus th rate avgHours maxGap ≠ Status.poor) := by
  constructor
  · cases h : classifyStatus th rate avgHours maxGap <;> simp
  · intro h0
    constructor
    · simp [classifyStatus, h0]
    · simp [classifyStatus, h0]

/-- C2 witness: an employee with rate 0 (8 average hours, gap 5) is a
Non-Reporter and not Poor under the default thresholds. -/
theorem C2_status_total_witness :
    classifyStatus defaultThresholds 0 8 5 = Status.nonReporter ∧
    classifyStatus defaultThresholds 0 8 5 ≠ Status.poor :=
  (C2_status_total defaultThresholds 0 8 5).2 rfl

/-- C3: a billing bucket whose category has no configured cap — including
every category absent from the policy table, which defaults to uncapped —
yields `billable_hours = summed_hours` and `extra_hours = 0`. -/
theorem C3_billing_uncapped (caps : ProjectCaps) (b : BillingBucket) :
    (caps.find? (fun p => p.1 == b.category) = none → capFor caps b.category = none) ∧
    (capFor caps b.category = none → billBucket caps b =
      { billable_hours := b.summed_hours, extra_hours := 0, cap_applied := false }) := by
  constructor
  · intro h
    simp [capFor, h]
  · intro h
    simp [billBucket, h]

/-- C3 witness: the Development category is absent from the ETL-only
policy, so a 12-hour bucket bills in full with no extra hours. -/
theorem C3_billing_uncapped_witness :
    capFor exCaps exBucketDev.category = none ∧
    billBucket exCaps exBucketDev =
      { billable_hours := 12, extra_hours := 0, cap_applied := false } := by
  have h := (C3_billing_uncapped exCaps exBucketDev).1 (by decide)
  exact ⟨h, (C3_billing_uncapped exCaps exBucketDev).2 h⟩

/-- C4: every employee rollup's billing efficiency equals
`total_billable_hours / total_hours * 100`, and the division is guarded:
when `total_hours = 0` the efficiency is defined as 100. -/
theorem C4_billing_efficiency_guard (e : EmployeeRollup) :
    (e.total_hours = 0 → billing_efficiency e = 100) ∧
    (e.total_hours ≠ 0 →
      billing_efficiency e = e.total_billable_hours / e.total_hours * 100) := by
  constructor
  · intro h
    simp [billing_efficiency, h]
  · intro h
    simp [billing_efficiency, h]

/-- C4 witness: a zero-hour rollup scores 100, a 3-of-4 rollup scores
`3 / 4 * 100`. -/
theorem C4_billing_efficiency_guard_witness :
    billing_efficiency { total_hours := 0, total_billable_hours := 5 } = 100 ∧
    billing_efficiency { total_hours := 4, total_billable_hours := 3 } = 3 / 4 * 100 :=
  ⟨(C4_billing_efficiency_guard _).1 rfl,
   (C4_billing_efficiency_guard _).2 (by norm_num)⟩

/-- C7: in every computed submission index, the submitted days are a
subset of the working days and the derived submission rate lies in
`[0, 1]`. -/
theorem C7_submission_index_invariants (rs : List WorkRec) (emp : String) :
    submittedDays rs emp ⊆ workingDays rs ∧
    0 ≤ submissionRate rs emp ∧ submissionRate rs emp ≤ 1 := by
  refine ⟨?_, ?_, ?_⟩
  · intro x hx
    simp only [submittedDays] at hx
    exact List.mem_of_mem_filter hx
  · unfold submissionRate
    split
    · norm_num
    · positivity
  · unfold submissionRate
    split
    · norm_num
    · rename_i h
      have hpos : 0 < (workingDays rs).length := Nat.pos_of_ne_zero h
      rw [div_le_one (by exact_mod_cast hpos)]
      have hle : (submittedDays rs emp).length ≤ (workingDays rs).length :=
        List.length_filter_le _ _
      exact_mod_cast hle

/-- C5 counterexample: a bot message carries an explicit chart descriptor
with `chartType` bar but empty datasets (malformed: `DynamicChart` rejects
it) together with a comprehensive-charts bundle from which the fallback
derives a valid doughnut chart; `extractedChartData` nevertheless returns
the malformed external descriptor, not the fallback — refuting the claim
that a malformed external descriptor is discarded in favor of the
fallback. -/
theorem C5_external_chart_cex :
    cexMsg.chartData = some cexExternalChart ∧
    dynamicChartValid cexExternalChart = false ∧
    extractedChartData cexMsg = some cexExternalChart ∧
    getChartFromComprehensiveData cexMsg.comprehensiveCharts cexMsg.text =
      some cexFallbackChart ∧
    dynamicChartValid cexFallbackChart = true ∧
    extractedChartData cexMsg ≠ some cexFallbackChart := by
  decide

/-- C5 (amended): an external chart descriptor whose `chartType` is not
the string none is always used as-is, without structural validation; the
fallback chain is consulted only when the descriptor is absent or typed
none.  A malformed descriptor that reaches the renderer (empty datasets)
silently renders nothing and is never surfaced as a user-visible error. -/
theorem C5_external_chart_override (m : Msg) (cd : ChartData)
    (h1 : m.chartData = some cd) (h2 : cd.chartType ≠ "none") :
    extractedChartData m = some cd ∧
    (cd.datasets = [] → dynamicChart cd = RenderOutcome.nothing) := by
  constructor
  · unfold extractedChartData
    rw [h1]
    simp [h2]
  · intro hempty
    simp [dynamicChart, dynamicChartValid, h2, hempty]

/-- C5 witness: the counterexample message instantiates the amended
claim. -/
theorem C5_external_chart_override_witness :
    extractedChartData cexMsg = some cexExternalChart ∧
    dynamicChart cexExternalChart = RenderOutcome.nothing :=
  ⟨(C5_external_chart_override cexMsg cexExternalChart rfl (by decide)).1,
   (C5_external_chart_override cexMsg cexExternalChart rfl (by decide)).2 rfl⟩

/-- C6: for every input, including absent or empty chart bundles, the
comprehensive-chart builder returns either the explicit no-chart marker
(`none`) or a structurally valid descriptor with non-empty `labels` and
`datasets` arrays. -/
theorem C6_chart_builder_structural (charts : Option ComprehensiveCharts) (text : String) :
    getChartFromComprehensiveData charts text = none ∨
    ∃ cd, getChartFromComprehensiveData charts text = some cd ∧
      cd.labels ≠ [] ∧ cd.datasets ≠ [] := by
  cases charts with
  | none => exact Or.inl rfl
  | some c =>
    simp only [getChartFromComprehensiveData]
    split_ifs with h1 h2 h3 h4
    · simp only [Bool.and_eq_true, Bool.not_eq_true'] at h1
      exact Or.inr ⟨_, rfl, map_ne_nil _ _ (ne_nil_of_isEmpty_false h1.2), by simp⟩
    · simp only [Bool.and_eq_true, Bool.not_eq_true'] at h2
      exact Or.inr ⟨_, rfl, map_ne_nil _ _ (ne_nil_of_isEmpty_false h2.2), by simp⟩
    · simp only [Bool.and_eq_true, Bool.not_eq_true'] at h3
      exact Or.inr ⟨_, rfl, take10_map_ne_nil _ _ (ne_nil_of_isEmpty_false h3.2), by simp⟩
    · simp only [Bool.and_eq_true, Bool.not_eq_true'] at h4
      exact Or.inr ⟨_, rfl, take10_map_ne_nil _ _ (ne_nil_of_isEmpty_false h4.2), by simp⟩
    · exact Or.inl rfl

/-- C8: for submissions with missing `tasks`, `totalHours`, `email` or
`employeeName`, `saveToSheet` still appends a complete six-column row with
the documented defaults (empty task list, zero hours, empty strings), and
on an internal exception it returns a `{success: false, error}` result
instead of throwing. -/
theorem C8_save_to_sheet_defaults (ts : ℕ) (today : String) (d : FormData) (e : String) :
    (buildRow ts today d).length = 6 ∧
    buildRow ts today
        { d with tasks := none, totalHours := none, email := none, employeeName := none } =
      [Cell.timestamp ts, Cell.str "", Cell.str "",
       Cell.str (d.reportDate.getD today), Cell.str "", Cell.str "0 hrs"] ∧
    saveToSheet { appendRowError := some e } ts today d = (SaveResult.failure e, []) ∧
    saveToSheet { appendRowError := none } ts today d =
      (SaveResult.success ts (d.tasks.getD []).length (d.totalHours.getD 0),
       [buildRow ts today d]) :=
  ⟨rfl, rfl, rfl, rfl⟩

/-- C9: for every chart descriptor actually rendered with a type other
than none, scatter or bubble, the prepared data arrays are exactly the
coerced dataset entries normalized to the label count: each array has
`labels.length` entries and every entry is numeric. -/
theorem C9_dynamic_chart_normalization (cd : ChartData)
    (_h1 : cd.chartType ≠ "none") (h2 : cd.chartType ≠ "scatter")
    (h3 : cd.chartType ≠ "bubble") :
    renderedData cd = cd.datasets.map
      (fun ds => normalizeLength cd.labels.length (numericData ds)) ∧
    ∀ d ∈ renderedData cd, d.length = cd.labels.length ∧
      ∀ v ∈ d, ∃ q : ℚ, v = JSValue.num q := by
  have hxy : isXYChart cd.chartType = false := by
    simp [isXYChart, h2, h3]
  have heq : renderedData cd = cd.datasets.map
      (fun ds => normalizeLength cd.labels.length (numericData ds)) := by
    simp [renderedData, chartConfigData, h2, hxy, List.map_map, Function.comp]
  refine ⟨heq, ?_⟩
  intro d hd
  rw [heq] at hd
  obtain ⟨ds, _, rfl⟩ := List.mem_map.1 hd
  exact ⟨normalizeLength_length _ _, mem_normalizeLength_num _ _ (mem_numericData_num ds)⟩

/-- C9 witness: a bar chart with three labels and five raw entries — a
unit-suffixed string, plain numbers and non-numeric junk — normalizes to
three numeric entries. -/
theorem C9_dynamic_chart_normalization_witness :
    renderedData exChartC9 = exChartC9.datasets.map
      (fun ds => normalizeLength exChartC9.labels.length (numericData ds)) ∧
    ∀ d ∈ renderedData exChartC9, d.length = exChartC9.labels.length ∧
      ∀ v ∈ d, ∃ q : ℚ, v = JSValue.num q :=
  C9_dynamic_chart_normalization exChartC9 (by decide) (by decide) (by decide)

/-- C10: the top-performers quick filter always sends exactly the query
`Show top performing employees`, and the need-attention quick filter
always sends exactly `Show employees needing attention`, for any wall
clock. -/
theorem C10_quick_filter_queries (todayStr weekAgoStr monthStartStr : String) :
    applyQuickFilter todayStr weekAgoStr monthStartStr "top-performers" =
      some "Show top performing employees" ∧
    applyQuickFilter todayStr weekAgoStr monthStartStr "need-attention" =
      some "Show employees needing attention" :=
  ⟨rfl, rfl⟩

end EmpTracker
